import Mathlib

/-!
Verification of USTCSoftware2018/SearchEngine-B (`src/search.py`).

The program is a set of per-site search adapters. Each adapter implements
`count(keyword)` and `search(keyword, rng)` over an external website, with
pagination and per-instance caching. We embed the adapter logic shallowly:
network transports (HTTP fetch + HTML/XML parsing of one response) are opaque
function parameters, and the adapter code operating on their outputs is
translated from the Python source.
-/

namespace SearchEngine

set_option autoImplicit false

/-- One normalized search hit, `Result(title, url, summary)`
(src/search.py lines 12-16). -/
structure Result where
  title : String
  url : String
  summary : String
  deriving DecidableEq, Repr

/-- The page-accumulation loop shared verbatim by `HumanGeneSource.search`
(step 10, lines 86-98), `UniProtSource.search` (step 25, lines 201-213) and
`TaxonomySource.search` (step 25, lines 257-269):

    results = []
    offset = rng.start
    while offset < rng.stop:
        oneshot = self.search_oneshot(keyword, offset)
        results.extend(oneshot[:min(rng.stop-offset, step)])
        if len(oneshot) < step:
            break
        offset += len(oneshot)
    return results

`oneshot` is the adapter's `search_oneshot` for the fixed keyword, modelled as
an opaque page fetch `Nat → List Result`. The source's `step` is the constant
10 or 25, hence positive; positivity is what makes the loop terminate, so we
carry it as the hypothesis `hstep`. -/
def pagedSearch (oneshot : Nat → List Result) (step : Nat) (hstep : 0 < step)
    (stop offset : Nat) : List Result :=
  if h1 : offset < stop then
    let page := oneshot offset
    let taken := page.take (min (stop - offset) step)
    if h2 : page.length < step then
      taken
    else
      taken ++ pagedSearch oneshot step hstep stop (offset + page.length)
  else
    []
termination_by stop - offset
decreasing_by
  have hlen : step ≤ (oneshot offset).length := Nat.le_of_not_lt h2
  have h0 : offset < offset + (oneshot offset).length := by omega
  exact Nat.sub_lt_sub_left h1 h0

/-- Fuel-indexed transcription of the same while loop: each constructor
application is one loop iteration; exhausted fuel returns the empty
accumulation. Used to state that the source loop terminates. -/
def pagedSearchFuel (oneshot : Nat → List Result) (step stop : Nat) :
    Nat → Nat → List Result
  | _, 0 => []
  | offset, fuel + 1 =>
    if offset < stop then
      let page := oneshot offset
      let taken := page.take (min (stop - offset) step)
      if page.length < step then
        taken
      else
        taken ++ pagedSearchFuel oneshot step stop (offset + page.length) fuel
    else
      []

/-- A parsed response page of the gene/protein listing sites, as far as the
adapters inspect it: the `Result`s parsed from the results container (`[]` when
the container is absent from the response) and the total-match number parsed
from the header (`ss-item` text for HumanGeneSource, the `main-aside` script
for UniProt/Taxonomy). -/
structure Soup where
  results : List Result
  total : Nat
  deriving DecidableEq, Repr

/-- Instance state of `HumanGeneSource` (also, structurally, of
`UniProtSource` and `TaxonomySource`): the cached first-page soup
(`self._cached_first_soup`, src/search.py line 49), plus a fetch counter that
counts network requests (`requests.get` in `soupize`) to state the caching
claims. -/
structure HGState where
  cachedFirstSoup : Option Soup
  fetches : Nat
  deriving DecidableEq, Repr

namespace HumanGeneSource

/-- Embeds `HumanGeneSource.soupize` (src/search.py lines 51-55): issue one network
request and parse it. The transport (HTTP + HTML parsing) is the opaque
function `transport : keyword → start → Soup`; `soupize(keyword)` without a
`start` parameter is the same page as `start = 0`. Each call is one network
fetch. -/
def soupize (transport : String → Nat → Soup) (kw : String) (start : Nat)
    (s : HGState) : Soup × HGState :=
  (transport kw start, { s with fetches := s.fetches + 1 })

/-- Embeds `HumanGeneSource.search_oneshot` (src/search.py lines 57-79): reuse the
cached first soup when `start == 0` and a cached soup exists (the cache is not
keyed by keyword), otherwise fetch; return the parsed results container. -/
def search_oneshot (transport : String → Nat → Soup) (kw : String)
    (start : Nat) (s : HGState) : List Result × HGState :=
  match start, s.cachedFirstSoup with
  | 0, some soup => (soup.results, s)
  | _, _ =>
    let q := soupize transport kw start s
    (q.1.results, q.2)

/-- Embeds `HumanGeneSource.count` (src/search.py lines 81-84): fetch the first page
(unconditionally), cache its soup, and return the parsed total. -/
def count (transport : String → Nat → Soup) (kw : String) (s : HGState) :
    Nat × HGState :=
  let q := soupize transport kw 0 s
  (q.1.total, { q.2 with cachedFirstSoup := some q.1 })

/-- The while loop of `HumanGeneSource.search` (src/search.py lines 86-98)
with its state threading (each `search_oneshot` may fetch). `step` is the
constant 10. -/
def searchLoop (transport : String → Nat → Soup) (kw : String) (stop : Nat)
    (offset : Nat) (s : HGState) : List Result × HGState :=
  if h1 : offset < stop then
    let oneshot := search_oneshot transport kw offset s
    let taken := oneshot.1.take (min (stop - offset) 10)
    if h2 : oneshot.1.length < 10 then
      (taken, oneshot.2)
    else
      let rest := searchLoop transport kw stop (offset + oneshot.1.length) oneshot.2
      (taken ++ rest.1, rest.2)
  else
    ([], s)
termination_by stop - offset
decreasing_by
  have hlen : 10 ≤ (search_oneshot transport kw offset s).1.length :=
    Nat.le_of_not_lt h2
  have h0 : offset < offset + (search_oneshot transport kw offset s).1.length := by
    omega
  exact Nat.sub_lt_sub_left h1 h0

/-- Embeds `HumanGeneSource.search` over `rng = range(a, b)`. -/
def search (transport : String → Nat → Soup) (kw : String) (a b : Nat)
    (s : HGState) : List Result × HGState :=
  searchLoop transport kw b a s

end HumanGeneSource

/-- Instance state of `RCSBSource` (src/search.py lines 114-115): the
keyword-keyed id cache `self.cached_ids` (a Python dict, embedded as an
association list), plus a fetch counter for the search REST request issued by
`query_all`. -/
structure RCSBState where
  cached_ids : List (String × List String)
  fetches : Nat
  deriving DecidableEq, Repr

namespace RCSBSource

/-- Embeds `RCSBSource.query_all` (src/search.py lines 117-126): return the cached id
list for this keyword when present; otherwise issue the keyword query (the
opaque transport `idsOf` yields the parsed, empty-line-filtered PDB id list),
cache it under the keyword, and return it. -/
def query_all (idsOf : String → List String) (kw : String) (s : RCSBState) :
    List String × RCSBState :=
  match s.cached_ids.lookup kw with
  | some pdbids => (pdbids, s)
  | none =>
    let pdbids := idsOf kw
    (pdbids, ⟨(kw, pdbids) :: s.cached_ids, s.fetches + 1⟩)

/-- Embeds `RCSBSource.count` (src/search.py lines 128-129). -/
def count (idsOf : String → List String) (kw : String) (s : RCSBState) :
    Nat × RCSBState :=
  let q := query_all idsOf kw s
  (q.1.length, q.2)

/-- Building one `Result` from a `(pdbid, title)` row of the custom report
(src/search.py lines 147-153). -/
def mkResult (p : String × String) : Result :=
  ⟨p.1, "https://www.rcsb.org/structure/" ++ p.1, p.2⟩

/-- Embeds `RCSBSource.search` (src/search.py lines 131-154): slice the cached id
list by `[rng.start : rng.stop]`, fetch the id→title custom report for the
sliced ids (opaque transport `report`, returning the title column rows in
order), and zip ids with titles. -/
def search (idsOf : String → List String) (report : List String → List String)
    (kw : String) (a b : Nat) (s : RCSBState) : List Result × RCSBState :=
  let q := query_all idsOf kw s
  let pdbids := (q.1.drop a).take (b - a)
  ((pdbids.zip (report pdbids)).map mkResult, q.2)

end RCSBSource

/-- One `documentsummary` element of a geoprofiles esummary response, as far
as `GeneExpressionSourceProfiles.get_info` inspects it: the optional `title`
element and the optional `nucdesc` element (either may be absent: "some search
results don't have any information, only uids", src/search.py line 329). The
record's uid attribute is the uid it was requested for. -/
structure GeoDoc where
  title : Option String
  nucdesc : Option String
  deriving DecidableEq, Repr

/-- The opaque NCBI eutils transports used by `GeneExpressionSourceProfiles`:
the esearch count and uid list of the `geoprofiles` database (the uid list as
returned for a given `retmax`), the per-uid esummary document, and the esearch
count of the `gds` database (which line 341 of src/search.py queries). -/
structure GeoTransport where
  geoprofilesCount : String → Nat
  geoprofilesUids : String → Nat → List String
  geoprofilesDoc : String → GeoDoc
  gdsCount : String → Nat

namespace GeneExpressionSourceProfiles

/-- Embeds `GeneExpressionSourceProfiles.get_uid` (src/search.py lines 279-297):
fetch the geoprofiles count, clip `end` to it, and fetch the uid list with
`retmax = end` (an absent `<id>` list is the empty list). -/
def get_uid (t : GeoTransport) (kw : String) (end_ : Nat) : List String :=
  let cnt := t.geoprofilesCount kw
  let e := if end_ > cnt then cnt else end_
  t.geoprofilesUids kw e

/-- The batching of uids into comma-joined strings of at most 10
(src/search.py lines 306-315), embedded as chunking the uid list. -/
def chunk10 {α : Type} (l : List α) : List (List α) :=
  match l with
  | [] => []
  | x :: xs => ((x :: xs).take 10) :: chunk10 ((x :: xs).drop 10)
termination_by l.length
decreasing_by
  simp only [List.length_drop, List.length_cons]
  omega

/-- The per-document branch of the esummary loop (src/search.py lines
323-336): skip documents missing a title or a nucdesc, otherwise build a
`Result` from title, uid-derived url, and nucdesc. -/
def docResult (t : GeoTransport) (u : String) : Option Result :=
  match (t.geoprofilesDoc u).title, (t.geoprofilesDoc u).nucdesc with
  | some title, some nucdesc =>
    some ⟨title, "https://www.ncbi.nlm.nih.gov/geoprofiles/" ++ u, nucdesc⟩
  | _, _ => none

/-- Embeds `GeneExpressionSourceProfiles.get_info` (src/search.py lines 299-337):
get the uids (early-return `[]` when empty), batch them by 10, fetch each
batch's esummary, and keep the documents that have both title and nucdesc. -/
def get_info (t : GeoTransport) (kw : String) (end_ : Nat) : List Result :=
  let uid := get_uid t kw end_
  if uid.isEmpty then []
  else ((chunk10 uid).map (fun batch => batch.filterMap (docResult t))).flatten

/-- Embeds `GeneExpressionSourceProfiles.count` (src/search.py lines 339-345). Note
the esearch URL on line 341 queries `db=gds`, not `db=geoprofiles`. -/
def count (t : GeoTransport) (kw : String) : Nat :=
  t.gdsCount kw

/-- Embeds `GeneExpressionSourceProfiles.search` (src/search.py lines 347-349):
`end = rng.stop; return self.get_info(keyword, end)` — `rng.start` is unused. -/
def search (t : GeoTransport) (kw : String) (a b : Nat) : List Result :=
  get_info t kw b

end GeneExpressionSourceProfiles

/-- The seven concrete adapter classes of src/search.py, as named by the
`mapping` table of the `__main__` block (lines 432-440). -/
inductive SourceTag where
  | humanGene
  | igemPart
  | rcsb
  | uniprot
  | taxonomy
  | geneExprPro
  | geneExprDat
  deriving DecidableEq, Repr

/-- The `mapping` dict of the `__main__` block (src/search.py lines 432-440),
in insertion order (Python dicts iterate in insertion order). -/
def sourceMapping : List (String × SourceTag) :=
  [("human-gene", SourceTag.humanGene),
   ("igem-part", SourceTag.igemPart),
   ("rcsb", SourceTag.rcsb),
   ("uniprot", SourceTag.uniprot),
   ("taxonomy", SourceTag.taxonomy),
   ("gene-expr-pro", SourceTag.geneExprPro),
   ("gene-expr-dat", SourceTag.geneExprDat)]

/-- The fatal error of the `__main__` block's for-else
(`RuntimeError('Unknown data source')`, src/search.py line 450). -/
inductive CliError where
  | unknownSource
  deriving DecidableEq, Repr

/-- Python's `k.startswith(name)` test of the `__main__` loop (src/search.py
line 446), embedded as the character-list prefix test: `name` is a prefix of
`k`. -/
def strStartsWith (k name : String) : Bool :=
  name.toList.isPrefixOf k.toList

/-- The adapter-selection loop of the `__main__` block (src/search.py lines
445-450): the first mapping entry whose key starts with the given name wins;
the for-else raises `RuntimeError('Unknown data source')` when none matches. -/
def selectSource (name : String) : Except CliError SourceTag :=
  match sourceMapping.find? (fun kv => strStartsWith kv.1 name) with
  | some kv => Except.ok kv.2
  | none => Except.error CliError.unknownSource

namespace HumanGeneRedirect

/-- Modelled from the spec: src/search.py's `HumanGeneSource` has no
redirect branch, but the spec (§4.2, "Special redirect-driven branch",
§8 "Redirect/direct-hit fixture") requires the adapter to detect when the
backing site redirects straight to a single detail record instead of a
results listing. A parsed response is therefore either a normal listing soup
or such a redirect, carrying the detail record's data. -/
inductive HGResponse where
  | listing (soup : Soup)
  | redirect (detail : Result)
  deriving DecidableEq, Repr

/-- Modelled from the spec: `count` on a redirect-class response reports 1;
on a listing it reports the parsed total, as `HumanGeneSource.count` does. -/
def countR : HGResponse → Nat
  | HGResponse.redirect _ => 1
  | HGResponse.listing soup => soup.total

/-- Modelled from the spec: `search` on a redirect-class response synthesizes
exactly one `Result` from the detail page, regardless of the requested range
bounds; on a listing it runs the page-accumulation loop (step 10) over the
listing pages. -/
def searchR (resp : HGResponse) (pages : Nat → List Result) (a b : Nat) :
    List Result :=
  match resp with
  | HGResponse.redirect d => [d]
  | HGResponse.listing _ => pagedSearch pages 10 (by omega) b a

end HumanGeneRedirect

/-- The loop body is skipped entirely when `offset ≥ rng.stop`. -/
theorem pagedSearch_eq_nil (oneshot : Nat → List Result) (step : Nat)
    (hstep : 0 < step) (stop offset : Nat) (h : stop ≤ offset) :
    pagedSearch oneshot step hstep stop offset = [] := by
  rw [pagedSearch]
  exact dif_neg (Nat.not_lt.mpr h)

/-- One iteration, short page: the loop extends by the trimmed page and breaks. -/
theorem pagedSearch_short (oneshot : Nat → List Result) (step : Nat)
    (hstep : 0 < step) (stop offset : Nat) (h1 : offset < stop)
    (h2 : (oneshot offset).length < step) :
    pagedSearch oneshot step hstep stop offset =
      (oneshot offset).take (min (stop - offset) step) := by
  rw [pagedSearch]
  simp [h1, h2]

/-- One iteration, full page: the loop extends by the trimmed page and
continues at `offset + len(oneshot)`. -/
theorem pagedSearch_cont (oneshot : Nat → List Result) (step : Nat)
    (hstep : 0 < step) (stop offset : Nat) (h1 : offset < stop)
    (h2 : ¬ (oneshot offset).length < step) :
    pagedSearch oneshot step hstep stop offset =
      (oneshot offset).take (min (stop - offset) step) ++
        pagedSearch oneshot step hstep stop (offset + (oneshot offset).length) := by
  rw [pagedSearch]
  simp [h1, h2]

theorem pagedSearch_length_aux (oneshot : Nat → List Result) (step : Nat)
    (hstep : 0 < step) (stop : Nat) :
    ∀ n offset, stop - offset ≤ n →
      (pagedSearch oneshot step hstep stop offset).length ≤ stop - offset := by
  intro n
  induction n with
  | zero =>
    intro offset h
    rw [pagedSearch_eq_nil oneshot step hstep stop offset (by omega)]
    simp
  | succ n ih =>
    intro offset h
    by_cases h1 : offset < stop
    · by_cases h2 : (oneshot offset).length < step
      · rw [pagedSearch_short oneshot step hstep stop offset h1 h2]
        simp only [List.length_take]
        omega
      · rw [pagedSearch_cont oneshot step hstep stop offset h1 h2]
        have hlen : step ≤ (oneshot offset).length := Nat.le_of_not_lt h2
        have hrec := ih (offset + (oneshot offset).length) (by omega)
        simp [List.length_append, List.length_take]
        omega
    · rw [pagedSearch_eq_nil oneshot step hstep stop offset (by omega)]
      simp

/-- The loop never returns more than `rng.stop - rng.start` items, for an
arbitrary page-fetch behavior. -/
theorem pagedSearch_length_le (oneshot : Nat → List Result) (step : Nat)
    (hstep : 0 < step) (stop offset : Nat) :
    (pagedSearch oneshot step hstep stop offset).length ≤ stop - offset :=
  pagedSearch_length_aux oneshot step hstep stop (stop - offset) offset le_rfl

theorem pagedSearch_pages_aux (full : List Result) (step : Nat)
    (hstep : 0 < step) (stop : Nat) :
    ∀ n offset, stop - offset ≤ n →
      pagedSearch (fun o => (full.drop o).take step) step hstep stop offset =
        (full.drop offset).take (stop - offset) := by
  intro n
  induction n with
  | zero =>
    intro offset h
    rw [pagedSearch_eq_nil _ step hstep stop offset (by omega)]
    have h0 : stop - offset = 0 := by omega
    rw [h0]
    simp
  | succ n ih =>
    intro offset h
    by_cases h1 : offset < stop
    · have hdlen : (full.drop offset).length = full.length - offset :=
        List.length_drop offset full
      by_cases h2 : ((full.drop offset).take step).length < step
      · have hshortlen : full.length - offset < step := by
          rw [List.length_take] at h2
          omega
        rw [pagedSearch_short _ step hstep stop offset h1 h2]
        rw [List.take_take]
        apply List.take_eq_take.mpr
        omega
      · have hlen : ((full.drop offset).take step).length = step := by
          rw [List.length_take]
          rw [List.length_take] at h2
          omega
        rw [pagedSearch_cont _ step hstep stop offset h1 h2]
        rw [hlen, List.take_take]
        rw [ih (offset + step) (by omega)]
        rcases Nat.lt_or_ge (stop - offset) step with hc | hc
        · have hz : stop - (offset + step) = 0 := by omega
          rw [hz]
          simp only [List.take_zero, List.append_nil]
          congr 1
          omega
        · have hmin : min (stop - offset) step = step := by omega
          rw [hmin, Nat.min_self]
          have hdd : full.drop (offset + step) = (full.drop offset).drop step := by
            rw [List.drop_drop]
          rw [hdd]
          rw [← List.take_add]
          congr 1
          omega
    · rw [pagedSearch_eq_nil _ step hstep stop offset (by omega)]
      have h0 : stop - offset = 0 := by omega
      rw [h0]
      simp

/-- When the page fetched at each offset `o` is exactly the `step`-sized slice
of one fixed full result list (the backing site pages through a stable list),
the loop returns exactly the `[offset, stop)` slice of that list, clipped to
however many results exist. -/
theorem pagedSearch_pages (full : List Result) (step : Nat) (hstep : 0 < step)
    (stop offset : Nat) :
    pagedSearch (fun o => (full.drop o).take step) step hstep stop offset =
      (full.drop offset).take (stop - offset) :=
  pagedSearch_pages_aux full step hstep stop (stop - offset) offset le_rfl

theorem pagedSearchFuel_eq_aux (oneshot : Nat → List Result) (step : Nat)
    (hstep : 0 < step) (stop : Nat) :
    ∀ fuel offset, stop - offset ≤ fuel →
      pagedSearchFuel oneshot step stop offset fuel =
        pagedSearch oneshot step hstep stop offset := by
  intro fuel
  induction fuel with
  | zero =>
    intro offset h
    rw [pagedSearch_eq_nil oneshot step hstep stop offset (by omega)]
    rfl
  | succ n ih =>
    intro offset h
    by_cases h1 : offset < stop
    · by_cases h2 : (oneshot offset).length < step
      · rw [pagedSearch_short oneshot step hstep stop offset h1 h2]
        simp [pagedSearchFuel, h1, h2]
      · rw [pagedSearch_cont oneshot step hstep stop offset h1 h2]
        have hlen : step ≤ (oneshot offset).length := Nat.le_of_not_lt h2
        have hrec := ih (offset + (oneshot offset).length) (by omega)
        simp [pagedSearchFuel, h1, h2]
        exact hrec
    · rw [pagedSearch_eq_nil oneshot step hstep stop offset (by omega)]
      simp [pagedSearchFuel, h1]

/-- C2: For every page-fetching adapter (HumanGeneSource, UniProtSource,
TaxonomySource), every keyword, and every range with `0 ≤ start ≤ stop`,
`search` fetches consecutive pages starting at `range.start`, accumulates
items, trims the final page so that never more than `range.stop - range.start`
items are returned, and stops early (returning everything accumulated so far)
as soon as a fetched page yields fewer items than the nominal page size.
Formally, for the shared loop `pagedSearch` over an arbitrary page fetch:
(1) at most `stop - start` items are returned; (2) when the page fetched at
the current offset is shorter than `step`, the loop returns that page trimmed
to the `stop` boundary and stops; (3) otherwise it returns the trimmed page
followed by the accumulation continued at the next page boundary
`start + len(page)`; (4) an empty range fetches nothing. -/
theorem C2_paged_accumulation (oneshot : Nat → List Result) (step : Nat)
    (hstep : 0 < step) (a b : Nat) :
    (pagedSearch oneshot step hstep b a).length ≤ b - a ∧
    (a < b → (oneshot a).length < step →
      pagedSearch oneshot step hstep b a =
        (oneshot a).take (min (b - a) step)) ∧
    (a < b → ¬ (oneshot a).length < step →
      pagedSearch oneshot step hstep b a =
        (oneshot a).take (min (b - a) step) ++
          pagedSearch oneshot step hstep b (a + (oneshot a).length)) ∧
    (b ≤ a → pagedSearch oneshot step hstep b a = []) :=
  ⟨pagedSearch_length_le oneshot step hstep b a,
   fun h1 h2 => pagedSearch_short oneshot step hstep b a h1 h2,
   fun h1 h2 => pagedSearch_cont oneshot step hstep b a h1 h2,
   fun h => pagedSearch_eq_nil oneshot step hstep b a h⟩

/-- Witness for C2: a two-page run (pages of size 2, range `[0, 3)`). -/
theorem C2_paged_accumulation_witness :
    (pagedSearch (fun o => [⟨"t", "u", "s"⟩, ⟨"t", "u", "s"⟩].drop (o / 2)) 2
        (by omega) 3 0).length ≤ 3 - 0 :=
  (C2_paged_accumulation
    (fun o => [⟨"t", "u", "s"⟩, ⟨"t", "u", "s"⟩].drop (o / 2)) 2
    (by omega) 0 3).1

/-- C7: For every page-fetching adapter and every keyword, when the first
fetched page yields zero items (the results container is absent from the
response, parsed as the empty list), `search` returns an empty sequence and
does not raise an error. -/
theorem C7_empty_first_page (oneshot : Nat → List Result) (step : Nat)
    (hstep : 0 < step) (a b : Nat) (h : oneshot a = []) :
    pagedSearch oneshot step hstep b a = [] := by
  by_cases h1 : a < b
  · rw [pagedSearch_short oneshot step hstep b a h1 (by rw [h]; simpa using hstep)]
    rw [h]
    simp
  · exact pagedSearch_eq_nil oneshot step hstep b a (by omega)

/-- Witness for C7: an all-empty site with page size 10 and range `[0, 5)`. -/
theorem C7_empty_first_page_witness :
    pagedSearch (fun _ => []) 10 (by omega) 5 0 = [] :=
  C7_empty_first_page (fun _ => []) 10 (by omega) 0 5 rfl

/-- C10: For every page-fetching adapter, every keyword, every range, and
every page-fetch behavior returning finite lists, the accumulation loop in
`search` terminates: each iteration either breaks because the fetched page is
shorter than the step size, or strictly increases the offset by at least the
step size, so the measure `range.stop - offset` strictly decreases. Formally:
the step-indexed transcription of the while loop (`pagedSearchFuel`, which
returns the partial accumulation when its fuel runs out) stabilizes at the
total function `pagedSearch` for any fuel of at least `stop - offset`
iterations. -/
theorem C10_loop_terminates (oneshot : Nat → List Result) (step : Nat)
    (hstep : 0 < step) (stop offset fuel : Nat)
    (hfuel : stop - offset ≤ fuel) :
    pagedSearchFuel oneshot step stop offset fuel =
      pagedSearch oneshot step hstep stop offset :=
  pagedSearchFuel_eq_aux oneshot step hstep stop fuel offset hfuel

/-- Witness for C10: the loop over one-item pages with range `[0, 3)`
finishes within 3 iterations. -/
theorem C10_loop_terminates_witness :
    pagedSearchFuel (fun _ => [⟨"t", "u", "s"⟩]) 1 3 0 3 =
      pagedSearch (fun _ => [⟨"t", "u", "s"⟩]) 1 (by omega) 3 0 :=
  C10_loop_terminates (fun _ => [⟨"t", "u", "s"⟩]) 1 (by omega) 3 0 3 (by omega)

/-- C8 (spec-modelled): when a keyword causes the backing site to redirect
straight to a single detail record instead of a results listing, the adapter
detects this redirect distinctly from a zero-results outcome, `count` returns
1, and `search` returns exactly one `Result` synthesized from the detail
page, regardless of the requested range bounds. -/
theorem C8_redirect_direct_hit (d : Result) (pages : Nat → List Result)
    (a b : Nat) :
    HumanGeneRedirect.countR (HumanGeneRedirect.HGResponse.redirect d) = 1 ∧
    HumanGeneRedirect.searchR (HumanGeneRedirect.HGResponse.redirect d)
        pages a b = [d] :=
  ⟨rfl, rfl⟩

theorem zip_map_self {α β : Type} (f : α → β) (l : List α) :
    l.zip (l.map f) = l.map (fun x => (x, f x)) := by
  induction l with
  | nil => rfl
  | cons x xs ih => simp [ih]

/-- C1: For the whole-set-policy adapter (RCSBSource), every keyword, and
every valid sub-range `[a,b) ⊆ [0, count(keyword))`, `search(keyword,
range(a,b))` equals the slice `[a:b]` of `search(keyword, range(0,
count(keyword)))`: results are neither skipped, duplicated, nor reordered
across paginated calls. The scenario is a fresh instance on which `count`,
then the full-range `search`, then the sub-range `search` are called in order
(each reusing the instance state left by the previous call); the title report
transport is assumed to return one title row per requested id, in order
(`hreport`). -/
theorem C1_rcsb_slice_consistency
    (idsOf : String → List String) (report : List String → List String)
    (titleOf : String → String) (kw : String) (a b : Nat)
    (hreport : ∀ l, report l = l.map titleOf)
    (hab : a ≤ b) (hb : b ≤ (RCSBSource.count idsOf kw ⟨[], 0⟩).1) :
    (RCSBSource.search idsOf report kw a b
        (RCSBSource.search idsOf report kw 0
            (RCSBSource.count idsOf kw ⟨[], 0⟩).1
            (RCSBSource.count idsOf kw ⟨[], 0⟩).2).2).1 =
      ((RCSBSource.search idsOf report kw 0
          (RCSBSource.count idsOf kw ⟨[], 0⟩).1
          (RCSBSource.count idsOf kw ⟨[], 0⟩).2).1.drop a).take (b - a) := by
  have hq1 : RCSBSource.query_all idsOf kw ⟨[], 0⟩ =
      (idsOf kw, ⟨[(kw, idsOf kw)], 1⟩) := by
    simp [RCSBSource.query_all, List.lookup]
  have hq2 : RCSBSource.query_all idsOf kw ⟨[(kw, idsOf kw)], 1⟩ =
      (idsOf kw, ⟨[(kw, idsOf kw)], 1⟩) := by
    simp [RCSBSource.query_all, List.lookup]
  simp only [RCSBSource.search, RCSBSource.count, hq1, hq2]
  simp only [List.drop_zero, Nat.sub_zero, List.take_length]
  rw [hreport, hreport, zip_map_self, zip_map_self, List.map_map, List.map_map]
  rw [List.map_take, List.map_drop]

/-- Witness for C1: three PDB ids, sub-range `[1, 2)`. -/
theorem C1_rcsb_slice_consistency_witness :
    (RCSBSource.search (fun _ => ["1A", "3C", "5E"])
        (fun l => l.map (fun i => "T" ++ i)) "x" 1 2
        (RCSBSource.search (fun _ => ["1A", "3C", "5E"])
            (fun l => l.map (fun i => "T" ++ i)) "x" 0
            (RCSBSource.count (fun _ => ["1A", "3C", "5E"]) "x" ⟨[], 0⟩).1
            (RCSBSource.count (fun _ => ["1A", "3C", "5E"]) "x" ⟨[], 0⟩).2).2).1 =
      ((RCSBSource.search (fun _ => ["1A", "3C", "5E"])
          (fun l => l.map (fun i => "T" ++ i)) "x" 0
          (RCSBSource.count (fun _ => ["1A", "3C", "5E"]) "x" ⟨[], 0⟩).1
          (RCSBSource.count (fun _ => ["1A", "3C", "5E"]) "x" ⟨[], 0⟩).2).1.drop 1).take
        (2 - 1) :=
  C1_rcsb_slice_consistency (fun _ => ["1A", "3C", "5E"])
    (fun l => l.map (fun i => "T" ++ i)) (fun i => "T" ++ i) "x" 1 2
    (fun _ => rfl) (by omega) (by decide)

/-- A deterministic, self-consistent NCBI fixture with two geoprofiles
records ("7" and "8", both carrying full summary data) for any keyword. -/
def geoCexTransport : GeoTransport where
  geoprofilesCount := fun _ => 2
  geoprofilesUids := fun _ n => ["7", "8"].take n
  geoprofilesDoc := fun u => { title := some ("T" ++ u), nucdesc := some ("S" ++ u) }
  gdsCount := fun _ => 2

/-- C3 is false as stated: `GeneExpressionSourceProfiles.search` ignores
`rng.start` (src/search.py line 348 uses only `rng.stop`), so
`search(keyword, range(1,2))` on a two-record fixture returns both records —
including the result at position 0, which lies before `range.start` — and is
not the slice `[1:2]` of the full result list. -/
theorem C3_counterexample :
    ¬ (GeneExpressionSourceProfiles.search geoCexTransport "k" 1 2 =
        ((GeneExpressionSourceProfiles.search geoCexTransport "k" 0 2).drop 1).take
          (2 - 1)) := by
  intro hcl
  have hc : GeneExpressionSourceProfiles.chunk10 ["7", "8"] = [["7", "8"]] := by
    rw [GeneExpressionSourceProfiles.chunk10, List.take_of_length_le (by simp),
      List.drop_eq_nil_of_le (by simp), GeneExpressionSourceProfiles.chunk10]
  have hu : GeneExpressionSourceProfiles.get_uid geoCexTransport "k" 2 = ["7", "8"] := rfl
  have hs : GeneExpressionSourceProfiles.get_info geoCexTransport "k" 2 =
      [⟨"T7", "https://www.ncbi.nlm.nih.gov/geoprofiles/7", "S7"⟩,
       ⟨"T8", "https://www.ncbi.nlm.nih.gov/geoprofiles/8", "S8"⟩] := by
    simp only [GeneExpressionSourceProfiles.get_info, hu, hc]
    rfl
  have h12 : GeneExpressionSourceProfiles.search geoCexTransport "k" 1 2 =
      GeneExpressionSourceProfiles.get_info geoCexTransport "k" 2 := rfl
  have h02 : GeneExpressionSourceProfiles.search geoCexTransport "k" 0 2 =
      GeneExpressionSourceProfiles.get_info geoCexTransport "k" 2 := rfl
  rw [h12, h02, hs] at hcl
  exact absurd hcl (by decide)

/-- C3 corrected: the `[range.start, range.stop)` slice property holds for the
page-fetching adapters — when the page fetched at each offset is the
`step`-sized slice of one fixed full result list, `search` returns exactly the
positions `[start, stop)` of that list, clipped to however many results exist
(RCSBSource's slice property is claim C1) — but GeneExpressionSourceProfiles
(and, identically, GeneExpressionSourceDatasets) ignores `range.start`
entirely: `search(keyword, range(a,b))` equals `search(keyword, range(0,b))`
for every transport, keyword and range. -/
theorem C3_slice_amended (full : List Result) (step : Nat) (hstep : 0 < step)
    (a b : Nat) (t : GeoTransport) (kw : String) :
    (pagedSearch (fun o => (full.drop o).take step) step hstep b a =
      (full.drop a).take (b - a)) ∧
    GeneExpressionSourceProfiles.search t kw a b =
      GeneExpressionSourceProfiles.search t kw 0 b :=
  ⟨pagedSearch_pages full step hstep b a, rfl⟩

/-- Witness for C3 (amended): three stable results, page size 2, range `[1, 3)`. -/
theorem C3_slice_amended_witness :
    (pagedSearch
        (fun o => ([⟨"t1", "u", "s"⟩, ⟨"t2", "u", "s"⟩, ⟨"t3", "u", "s"⟩].drop o).take 2)
        2 (by omega) 3 1 =
      ([⟨"t1", "u", "s"⟩, ⟨"t2", "u", "s"⟩, ⟨"t3", "u", "s"⟩].drop 1).take (3 - 1)) ∧
    GeneExpressionSourceProfiles.search geoCexTransport "k" 1 3 =
      GeneExpressionSourceProfiles.search geoCexTransport "k" 0 3 :=
  C3_slice_amended [⟨"t1", "u", "s"⟩, ⟨"t2", "u", "s"⟩, ⟨"t3", "u", "s"⟩] 2
    (by omega) 1 3 geoCexTransport "k"

/-- A deterministic HumanGeneSource site fixture: every page of every keyword
parses to an empty results container with a reported total of 0. -/
def hgCexTransport : String → Nat → Soup :=
  fun _ _ => ⟨[], 0⟩

/-- C4 is false as stated: `HumanGeneSource.count` (src/search.py lines 81-84)
unconditionally calls `soupize` — it writes the first-page cache but never
reads it — so two `count` calls on one fresh instance issue two network
fetches, not at most one. (The two calls do return the same value; only the
fetch bound fails.) -/
theorem C4_counterexample :
    ¬ ((HumanGeneSource.count hgCexTransport "k"
          (HumanGeneSource.count hgCexTransport "k" ⟨none, 0⟩).2).2.fetches ≤ 1) := by
  decide

/-- C4 corrected: calling `count(keyword)` twice on one fresh adapter instance
returns the same value in both calls; for RCSBSource the second call reuses
the keyword-keyed id cache, so exactly one expensive network fetch is issued
in total, but for HumanGeneSource (and the structurally identical
UniProtSource/TaxonomySource `count`) each call issues its own fetch — two in
total. -/
theorem C4_count_amended (idsOf : String → List String)
    (hgT : String → Nat → Soup) (kw : String) :
    ((RCSBSource.count idsOf kw
          (RCSBSource.count idsOf kw ⟨[], 0⟩).2).1 =
        (RCSBSource.count idsOf kw ⟨[], 0⟩).1 ∧
      (RCSBSource.count idsOf kw
          (RCSBSource.count idsOf kw ⟨[], 0⟩).2).2.fetches = 1) ∧
    ((HumanGeneSource.count hgT kw
          (HumanGeneSource.count hgT kw ⟨none, 0⟩).2).1 =
        (HumanGeneSource.count hgT kw ⟨none, 0⟩).1 ∧
      (HumanGeneSource.count hgT kw
          (HumanGeneSource.count hgT kw ⟨none, 0⟩).2).2.fetches = 2) := by
  have hq1 : RCSBSource.query_all idsOf kw ⟨[], 0⟩ =
      (idsOf kw, ⟨[(kw, idsOf kw)], 1⟩) := by
    simp [RCSBSource.query_all, List.lookup]
  have hq2 : RCSBSource.query_all idsOf kw ⟨[(kw, idsOf kw)], 1⟩ =
      (idsOf kw, ⟨[(kw, idsOf kw)], 1⟩) := by
    simp [RCSBSource.query_all, List.lookup]
  refine ⟨⟨?_, ?_⟩, rfl, rfl⟩
  · simp [RCSBSource.count, hq1, hq2]
  · simp [RCSBSource.count, hq1, hq2]

theorem lookup_mem {β : Type} (k : String) (v : β) :
    ∀ (l : List (String × β)), l.lookup k = some v → (k, v) ∈ l := by
  intro l
  induction l with
  | nil =>
    intro h
    simp [List.lookup] at h
  | cons p ps ih =>
    obtain ⟨k', v'⟩ := p
    intro h
    rw [List.lookup] at h
    by_cases hk : k == k'
    · simp [hk] at h
      have hk2 : k = k' := eq_of_beq hk
      rw [← hk2, h]
      exact List.mem_cons_self _ _
    · simp [hk] at h
      exact List.mem_cons_of_mem _ (ih h)

/-- A HumanGeneSource site fixture where keyword "A" and any other keyword
have different (single-result, self-consistent) first pages. -/
def hgKeywordTransport : String → Nat → Soup :=
  fun kw _ =>
    if kw = "A" then ⟨[⟨"tA", "uA", "sA"⟩], 1⟩ else ⟨[⟨"tB", "uB", "sB"⟩], 1⟩

/-- C5 is false as stated: `_cached_first_soup` is not keyed by keyword
(src/search.py lines 61-64), so after `count("A")` populates the cache, a
`search("B", range(0,1))` on the same HumanGeneSource instance answers from
keyword "A"'s cached first page and differs from what the same fresh query
for "B" returns in the same session. -/
theorem C5_counterexample :
    ¬ ((HumanGeneSource.search hgKeywordTransport "B" 0 1
          (HumanGeneSource.count hgKeywordTransport "A" ⟨none, 0⟩).2).1 =
        (HumanGeneSource.search hgKeywordTransport "B" 0 1 ⟨none, 0⟩).1) := by
  intro hcl
  have h1 : (HumanGeneSource.search hgKeywordTransport "B" 0 1
      (HumanGeneSource.count hgKeywordTransport "A" ⟨none, 0⟩).2).1 =
        [⟨"tA", "uA", "sA"⟩] := by
    rw [HumanGeneSource.search, HumanGeneSource.searchLoop]
    rfl
  have h2 : (HumanGeneSource.search hgKeywordTransport "B" 0 1 ⟨none, 0⟩).1 =
      [⟨"tB", "uB", "sB"⟩] := by
    rw [HumanGeneSource.search, HumanGeneSource.searchLoop]
    rfl
  rw [h1, h2] at hcl
  exact absurd hcl (by decide)

/-- C5 corrected: the cache-freshness invariant holds for RCSBSource, whose
cache is keyed by keyword: whenever every cache entry equals what a fresh
query for its own keyword returns (true of the empty cache a fresh instance
starts with), `query_all` — the sole cache reader, backing both `count` and
`search` — answers any keyword with exactly the fresh query's value and
preserves the invariant, across every interleaving of calls with different
keywords. (For HumanGeneSource, UniProtSource and TaxonomySource the
first-page cache is not keyed by keyword, and the invariant only holds while
all calls in the session use one keyword.) -/
theorem C5_cache_amended (idsOf : String → List String) (kw : String)
    (s : RCSBState) (hinv : ∀ k v, (k, v) ∈ s.cached_ids → v = idsOf k) :
    (RCSBSource.query_all idsOf kw s).1 = idsOf kw ∧
    ∀ k v, (k, v) ∈ (RCSBSource.query_all idsOf kw s).2.cached_ids →
      v = idsOf k := by
  unfold RCSBSource.query_all
  cases hl : s.cached_ids.lookup kw with
  | some ids =>
    simp only [hl]
    exact ⟨hinv kw ids (lookup_mem kw ids s.cached_ids hl), hinv⟩
  | none =>
    simp only [hl]
    refine ⟨by simp, ?_⟩
    intro k v hmem
    rcases List.mem_cons.mp hmem with hhd | htl
    · have h1 : k = kw := congrArg Prod.fst hhd
      have h2 : v = idsOf kw := congrArg Prod.snd hhd
      rw [h1, h2]
    · exact hinv k v htl

/-- Witness for C5 (amended): a fresh RCSB instance (empty cache). -/
theorem C5_cache_amended_witness :
    (RCSBSource.query_all (fun _ => ["9Z"]) "q" ⟨[], 0⟩).1 = ["9Z"] ∧
    ∀ k v, (k, v) ∈ (RCSBSource.query_all (fun _ => ["9Z"]) "q" ⟨[], 0⟩).2.cached_ids →
      v = ["9Z"] :=
  C5_cache_amended (fun _ => ["9Z"]) "q" ⟨[], 0⟩ (by simp)

/-- A deterministic NCBI fixture where the `geoprofiles` database has exactly
one record ("7", with full summary data) and the `gds` database reports 2
matches for the same keyword. -/
def geoBugTransport : GeoTransport where
  geoprofilesCount := fun _ => 1
  geoprofilesUids := fun _ n => ["7"].take n
  geoprofilesDoc := fun u => { title := some ("T" ++ u), nucdesc := some ("S" ++ u) }
  gdsCount := fun _ => 2

/-- C6 (code bug): `GeneExpressionSourceProfiles.count` (src/search.py line
341) queries the esearch endpoint with `db=gds`, while `get_uid`/`search` of
the same class query `db=geoprofiles` (line 281) — and
`GeneExpressionSourceDatasets` has the mirror-image swap (lines 360 vs 418).
So `count` and `search` consult different result sets, contradicting the
class's own docstring ("Source: https://www.ncbi.nlm.nih.gov/geoprofiles/"):
on a fixture where geoprofiles has 1 record and gds reports 2,
`count(keyword)` returns 2 but `search(keyword, range(0, count))` returns 1
result. -/
theorem C6_count_db_mismatch :
    GeneExpressionSourceProfiles.count geoBugTransport "k" = 2 ∧
    (GeneExpressionSourceProfiles.search geoBugTransport "k" 0
        (GeneExpressionSourceProfiles.count geoBugTransport "k")).length = 1 := by
  refine ⟨rfl, ?_⟩
  have hc : GeneExpressionSourceProfiles.chunk10 ["7"] = [["7"]] := by
    rw [GeneExpressionSourceProfiles.chunk10, List.take_of_length_le (by simp),
      List.drop_eq_nil_of_le (by simp), GeneExpressionSourceProfiles.chunk10]
  have hu : GeneExpressionSourceProfiles.get_uid geoBugTransport "k" 2 = ["7"] := rfl
  have hs : GeneExpressionSourceProfiles.search geoBugTransport "k" 0 2 =
      [⟨"T7", "https://www.ncbi.nlm.nih.gov/geoprofiles/7", "S7"⟩] := by
    show GeneExpressionSourceProfiles.get_info geoBugTransport "k" 2 = _
    simp only [GeneExpressionSourceProfiles.get_info, hu, hc]
    rfl
  have hcnt : GeneExpressionSourceProfiles.count geoBugTransport "k" = 2 := rfl
  rw [hcnt, hs]
  rfl

theorem find?_first {α : Type} (q : α → Bool) :
    ∀ (l : List α) (x : α), l.find? q = some x →
      ∃ i : Fin l.length, l.get i = x ∧ q x = true ∧
        ∀ j : Fin l.length, (j : Nat) < (i : Nat) → q (l.get j) = false := by
  intro l
  induction l with
  | nil =>
    intro x h
    simp [List.find?] at h
  | cons a as ih =>
    intro x h
    rw [List.find?] at h
    by_cases hq : q a
    · simp only [hq, cond_true] at h
      have hax : a = x := by simpa using h
      refine ⟨⟨0, by simp⟩, by simpa using hax, by rw [← hax]; exact hq, ?_⟩
      intro j hj
      exact absurd hj (Nat.not_lt_zero _)
    · simp only [Bool.not_eq_true] at hq
      simp only [hq, cond_false] at h
      obtain ⟨i, hget, hqx, hfirst⟩ := ih x h
      refine ⟨⟨i + 1, by simp⟩, by simpa using hget, hqx, ?_⟩
      intro j hj
      match j with
      | ⟨0, _⟩ => simpa using hq
      | ⟨jj + 1, hlt⟩ =>
        have := hfirst ⟨jj, by simpa using Nat.lt_of_succ_lt_succ hlt⟩ (by simpa using hj)
        simpa using this

/-- C9: For every CLI invocation with a source-name prefix argument, the
adapter chosen is the one of the first entry in the fixed name-to-adapter
mapping whose key starts with the given prefix (earlier table entries do not
match); if no mapping key starts with the prefix, the process terminates with
a fatal UnknownSource error instead of running any search. -/
theorem C9_source_prefix_selection (name : String) :
    (∀ t, selectSource name = Except.ok t →
      ∃ i : Fin sourceMapping.length,
        strStartsWith (sourceMapping.get i).1 name = true ∧
        (sourceMapping.get i).2 = t ∧
        ∀ j : Fin sourceMapping.length, (j : Nat) < (i : Nat) →
          strStartsWith (sourceMapping.get j).1 name = false) ∧
    (selectSource name = Except.error CliError.unknownSource ↔
      ∀ kv ∈ sourceMapping, strStartsWith kv.1 name = false) := by
  constructor
  · intro t ht
    unfold selectSource at ht
    cases hf : sourceMapping.find? (fun kv => strStartsWith kv.1 name) with
    | none =>
      rw [hf] at ht
      exact absurd ht (by simp)
    | some kv =>
      rw [hf] at ht
      obtain ⟨i, hget, hq, hfirst⟩ := find?_first _ sourceMapping kv hf
      refine ⟨i, ?_, ?_, ?_⟩
      · rw [hget]
        exact hq
      · rw [hget]
        simpa using ht
      · intro j hj
        exact hfirst j hj
  · constructor
    · intro h kv hmem
      unfold selectSource at h
      cases hf : sourceMapping.find? (fun kv => strStartsWith kv.1 name) with
      | none =>
        have := List.find?_eq_none.mp hf kv hmem
        simpa using this
      | some kv' =>
        rw [hf] at h
        exact absurd h (by simp)
    · intro h
      unfold selectSource
      cases hf : sourceMapping.find? (fun kv => strStartsWith kv.1 name) with
      | none => rfl
      | some kv =>
        have hq := List.find?_some hf
        have hmem := List.mem_of_find?_eq_some hf
        rw [h kv hmem] at hq
        exact absurd hq (by simp)

/-- Witness for C9: the prefix "gene" selects `gene-expr-pro` (the first
matching table entry), and the prefix "zzz" matches nothing and yields the
fatal UnknownSource error. -/
theorem C9_source_prefix_selection_witness :
    selectSource "zzz" = Except.error CliError.unknownSource :=
  (C9_source_prefix_selection "zzz").2.mpr (by decide)

end SearchEngine
